import Mathlib

/-!
Verification of the résumé generator (`src/generate_resume.py`).

The script loads a JSON record and appends styled paragraphs to a DOCX
document in a fixed order.  We embed the document as a list of
paragraphs (`Para`), each holding a list of styled text runs (`Run`),
and mirror every helper of the script (`set_run_font`, `add_heading`,
`add_paragraph_with_style`, `add_section_header`, `add_bullet_point`)
as a pure function.  The body of `generate_resume` is straight-line
appending, so the built document is the concatenation of per-field
blocks in source order.  The load/save/exit skeleton and the PDF
conversion fallback are embedded as functions over explicit outcome
values (file present / JSON good / docker available ...).
-/

/-- A styled text run, mirroring a python-docx run after the script has
(or has not) applied `set_run_font`.  `eastAsiaFont` mirrors the
`w:eastAsia` font binding set at `generate_resume.py:27`. -/
structure Run where
  text : String
  fontName : Option String := none
  size : Option Nat := none
  bold : Bool := false
  italic : Bool := false
  color : Option (Nat × Nat × Nat) := none
  eastAsiaFont : Option String := none
deriving DecidableEq

/-- A paragraph of the document.  `style` is the named paragraph style
(the script only ever uses `List Bullet`); `leftIndentQ` counts the
quarter-inch units of `Inches(indent * 0.25)`; `alignLeft` records an
explicit `WD_ALIGN_PARAGRAPH.LEFT` assignment; `spaceBefore` and
`spaceAfter` are in points. -/
structure Para where
  isHeading : Bool := false
  headingLevel : Nat := 0
  style : Option String := none
  leftIndentQ : Option Nat := none
  alignLeft : Bool := false
  spaceBefore : Option Nat := none
  spaceAfter : Option Nat := none
  runs : List Run := []
deriving DecidableEq

/-- `set_run_font` (lines 18-27): sets name, size, bold, italic, the
color only when one is given (`if color:`), and binds the same font
name to the `w:eastAsia` slot. -/
def set_run_font (run : Run) (font_name : String) (font_size : Nat)
    (bold : Bool) (italic : Bool) (color : Option (Nat × Nat × Nat)) : Run :=
  { run with
    fontName := some font_name
    size := some font_size
    bold := bold
    italic := italic
    color := match color with
      | some c => some c
      | none => run.color
    eastAsiaFont := some font_name }

/-- `add_heading` (lines 30-36): a heading paragraph, aligned left,
whose single run is styled at the given size. -/
def add_heading (text : String) (level : Nat) (size : Nat) (bold : Bool) : Para :=
  { isHeading := true
    headingLevel := level
    alignLeft := true
    runs := [set_run_font { text := text } "Calibri" size bold false none] }

/-- `add_paragraph_with_style` (lines 39-44). -/
def add_paragraph_with_style (text : String) (size : Nat) (bold : Bool)
    (color : Option (Nat × Nat × Nat)) : Para :=
  { runs := [set_run_font { text := text } "Calibri" size bold false color] }

/-- `add_section_header` (lines 47-54): 14pt bold accent-colored run,
12pt space before and 6pt after. -/
def add_section_header (text : String) : Para :=
  { spaceBefore := some 12
    spaceAfter := some 6
    runs := [set_run_font { text := text } "Calibri" 14 true false (some (0, 51, 102))] }

/-- `add_bullet_point` (lines 57-63): a `List Bullet` paragraph with
`indent * 0.25` inches of left indent, runs restyled to 11pt. -/
def add_bullet_point (text : String) (indent : Nat) : Para :=
  { style := some "List Bullet"
    leftIndentQ := some indent
    runs := [set_run_font { text := text } "Calibri" 11 false false none] }

/-- `doc.add_paragraph()` with no text: an empty separator paragraph. -/
def emptyPara : Para := {}

/-- The `personal_info` object; every key may be absent. -/
structure PersonalInfo where
  name : Option String := none
  email : Option String := none
  phone : Option String := none
  location : Option String := none
  linkedin : Option String := none
  github : Option String := none
deriving DecidableEq

/-- A JSON value that is either a single string or a list of strings
(the two shapes `generate_resume` distinguishes with `isinstance`). -/
inductive StrOrList where
  | str (s : String)
  | list (xs : List String)
deriving DecidableEq

/-- Python truthiness of `d.get(key)` for an optional string value:
true exactly when the key is present with a non-empty string. -/
def truthyStr (o : Option String) : Bool :=
  match o with
  | some s => !(s == "")
  | none => false

/-- Python truthiness of a string-or-list value. -/
def StrOrList.truthy : StrOrList → Bool
  | .str s => !(s == "")
  | .list xs => !xs.isEmpty

/-- One entry of `experience`. -/
structure Experience where
  position : Option String := none
  company : Option String := none
  period : Option String := none
  description : Option StrOrList := none
deriving DecidableEq

/-- One entry of `education`. -/
structure Education where
  degree : Option String := none
  school : Option String := none
  period : Option String := none
deriving DecidableEq

/-- One item of an additional section's `content` list: either a
key/value dict (lines 181-189) or a plain string (line 191). -/
inductive SectionItem where
  | kv (key : Option String) (value : Option String)
  | s (text : String)
deriving DecidableEq

/-- The `content` of an additional section: a list (rendered item by
item) or a single string (rendered as one plain paragraph). -/
inductive SectionContent where
  | str (s : String)
  | list (items : List SectionItem)
deriving DecidableEq

/-- One entry of `additional_sections`. -/
structure ResumeSection where
  title : Option String := none
  content : Option SectionContent := none
deriving DecidableEq

/-- The top-level record; every field is optional. -/
structure ResumeData where
  personal_info : Option PersonalInfo := none
  summary : Option String := none
  experience : Option (List Experience) := none
  education : Option (List Education) := none
  skills : Option StrOrList := none
  additional_sections : Option (List ResumeSection) := none
deriving DecidableEq

/-- Lines 91-92: the name heading.  `data.get('personal_info', {}).get('name', 'Имя Фамилия')`. -/
def nameOf (data : ResumeData) : String :=
  ((data.personal_info.getD {}).name).getD "Имя Фамилия"

/-- Lines 90-92: the heading block. -/
def nameBlock (data : ResumeData) : List Para :=
  [add_heading (nameOf data) 1 20 true]

/-- Lines 96-106: the list of present contact parts, each with its
label, in source order; a falsy (absent or empty) field contributes
nothing. -/
def contact_info (personal : PersonalInfo) : List String :=
  (if truthyStr personal.email then ["Email: " ++ personal.email.getD ""] else []) ++
  (if truthyStr personal.phone then ["Телефон: " ++ personal.phone.getD ""] else []) ++
  (if truthyStr personal.location then ["Местоположение: " ++ personal.location.getD ""] else []) ++
  (if truthyStr personal.linkedin then ["LinkedIn: " ++ personal.linkedin.getD ""] else []) ++
  (if truthyStr personal.github then ["GitHub: " ++ personal.github.getD ""] else [])

/-- The single contact paragraph (lines 109-112): parts joined with
" | ", left-aligned, runs at 10pt muted gray. -/
def contactPara (text : String) : Para :=
  { alignLeft := true
    runs := [set_run_font { text := text } "Calibri" 10 false false (some (100, 100, 100))] }

/-- Lines 95-112: the contact block, emitted only when at least one
contact field is present (`if contact_info:`). -/
def contactBlock (data : ResumeData) : List Para :=
  let ci := contact_info (data.personal_info.getD {})
  if ci.isEmpty then [] else [contactPara (String.intercalate " | " ci)]

/-- Lines 117-121: the `summary` block, guarded by `if data.get('summary'):`. -/
def summaryBlock (data : ResumeData) : List Para :=
  if truthyStr data.summary then
    [add_section_header "О себе",
     add_paragraph_with_style (data.summary.getD "") 11 false none,
     emptyPara]
  else []

/-- Line 127: the position/company line text, with `.get` defaults. -/
def titleText (e : Experience) : String :=
  e.position.getD "Должность" ++ " | " ++ e.company.getD "Компания"

/-- Lines 128-130: the bold 12pt position/company paragraph. -/
def titlePara (text : String) : Para :=
  { runs := [set_run_font { text := text } "Calibri" 12 true false none] }

/-- Lines 135-137 (also 162-164): the italic 10pt gray period paragraph. -/
def periodPara (text : String) : Para :=
  { runs := [set_run_font { text := text } "Calibri" 10 false true (some (100, 100, 100))] }

/-- Lines 133-137: the optional period line, emitted only when
`exp.get('period', '')` is truthy. -/
def periodParas (period : Option String) : List Para :=
  if period.getD "" == "" then [] else [periodPara (period.getD "")]

/-- Lines 140-145: the description of one experience entry, guarded by
`if exp.get('description'):` and branched on `isinstance(..., list)`. -/
def descriptionParas (d : Option StrOrList) : List Para :=
  match d with
  | some dv =>
    if dv.truthy then
      match dv with
      | .list xs => xs.map (fun item => add_bullet_point item 1)
      | .str s => [add_paragraph_with_style s 11 false none]
    else []
  | none => []

/-- Lines 125-147: the paragraphs of one experience entry: title line,
optional period line, description, trailing empty paragraph. -/
def experienceEntryBlock (e : Experience) : List Para :=
  [titlePara (titleText e)] ++ periodParas e.period ++
    descriptionParas e.description ++ [emptyPara]

/-- Lines 123-147: the experience block, guarded by
`if data.get('experience'):`. -/
def experienceBlock (data : ResumeData) : List Para :=
  match data.experience with
  | some es =>
    if es.isEmpty then []
    else add_section_header "Опыт работы" :: (es.map experienceEntryBlock).flatten
  | none => []

/-- Lines 152-166: the paragraphs of one education entry. -/
def educationEntryBlock (e : Education) : List Para :=
  [titlePara (e.degree.getD "Степень" ++ " | " ++ e.school.getD "Учебное заведение")] ++
    periodParas e.period ++ [emptyPara]

/-- Lines 150-166: the education block, guarded by
`if data.get('education'):`. -/
def educationBlock (data : ResumeData) : List Para :=
  match data.education with
  | some es =>
    if es.isEmpty then []
    else add_section_header "Образование" :: (es.map educationEntryBlock).flatten
  | none => []

/-- Line 171: `', '.join(skills)` for a list, the string itself otherwise. -/
def skillsText : StrOrList → String
  | .list xs => String.intercalate ", " xs
  | .str s => s

/-- Lines 169-173: the skills block, guarded by `if data.get('skills'):`. -/
def skillsBlock (data : ResumeData) : List Para :=
  match data.skills with
  | some sk =>
    if sk.truthy then
      [add_section_header "Навыки",
       add_paragraph_with_style (skillsText sk) 11 false none,
       emptyPara]
    else []
  | none => []

/-- Lines 181-191: one item of an additional section's content list: a
dict renders as a bold "key: " run followed by a plain value run, any
other item as an indented bullet. -/
def sectionItemPara : SectionItem → Para
  | .kv key value =>
    { runs := [set_run_font { text := key.getD "" ++ ": " } "Calibri" 11 true false none,
               set_run_font { text := value.getD "" } "Calibri" 11 false false none] }
  | .s text => add_bullet_point text 1

/-- Lines 178-194: one additional section: its header, its content
(item list, or a single plain paragraph via `str(...{});` an absent
`content` prints `str('')`), and a trailing empty paragraph. -/
def sectionBlock (sec : ResumeSection) : List Para :=
  [add_section_header (sec.title.getD "Раздел")] ++
    (match sec.content with
     | some (.list items) => items.map sectionItemPara
     | some (.str s) => [add_paragraph_with_style s 11 false none]
     | none => [add_paragraph_with_style "" 11 false none]) ++
    [emptyPara]

/-- Lines 176-194: the additional-sections block, guarded by
`if data.get('additional_sections'):`. -/
def additionalBlock (data : ResumeData) : List Para :=
  match data.additional_sections with
  | some secs =>
    if secs.isEmpty then [] else (secs.map sectionBlock).flatten
  | none => []

/-- Lines 82-194: the full document built by `generate_resume`, as the
concatenation of the per-field blocks in source order (the body is
straight-line appending).  The unconditional `doc.add_paragraph()` at
line 114 sits between the contact block and the summary block. -/
def buildDoc (data : ResumeData) : List Para :=
  nameBlock data ++ contactBlock data ++ [emptyPara] ++ summaryBlock data ++
    experienceBlock data ++ educationBlock data ++ skillsBlock data ++
    additionalBlock data

/-- The outcome of trying to open and parse the input file
(lines 70-79): the file may be missing, hold invalid JSON (with the
parser's error text), or parse into a record. -/
inductive LoadOutcome where
  | notFound
  | badJson (err : String)
  | ok (data : ResumeData)
deriving DecidableEq

/-- The observable result of a run of `generate_resume`: the exit code
passed to `sys.exit` (none when the function returns normally), the
saved file with its path and document content (none when nothing was
written), and everything printed. -/
structure GenResult where
  exitCode : Option Nat := none
  saved : Option (String × List Para) := none
  messages : List String := []
deriving DecidableEq

/-- `generate_resume` (lines 66-198): on a missing file it prints two
messages and exits with status 1 before any document exists; on bad
JSON it prints the parser error and exits 1; otherwise it assembles the
document, saves it at `output_file` and reports success. -/
def generate_resume (input : LoadOutcome) (data_file : String)
    (output_file : String) : GenResult :=
  match input with
  | .notFound =>
    { exitCode := some 1
      saved := none
      messages := ["Ошибка: файл " ++ data_file ++ " не найден!",
                   "Создайте файл resume_data.json с данными резюме."] }
  | .badJson err =>
    { exitCode := some 1
      saved := none
      messages := ["Ошибка при чтении JSON: " ++ err] }
  | .ok data =>
    { exitCode := none
      saved := some (output_file, buildDoc data)
      messages := ["Резюме успешно создано: " ++ output_file] }

/-- `output_file.endswith('.docx')`, embedded structurally over the
character list so that it is kernel-computable: the suffix test of
Python's `str.endswith`. -/
def endsWithDocx (s : String) : Bool :=
  ".docx".toList.isSuffixOf s.toList

/-- Lines 267-269: the `.docx` extension is appended when the supplied
output name does not already end in it. -/
def normalizeOutput (name : String) : String :=
  if endsWithDocx name then name else name ++ ".docx"

/-- Lines 264-271 of `__main__`: normalize the output name, then run
the generator on it. -/
def mainRun (input : LoadOutcome) (data_file : String) (outName : String) : GenResult :=
  generate_resume input data_file (normalizeOutput outName)

/-- The environment facts the PDF bridge branches on: whether
`shutil.which('docker')` finds the engine, whether the `docker run`
conversion exits successfully, whether `docx2pdf` can be imported, and
whether its `convert` call succeeds. -/
structure PdfEnv where
  dockerOnPath : Bool
  dockerRunOk : Bool
  docx2pdfInstalled : Bool
  docx2pdfOk : Bool
deriving DecidableEq

/-- `convert_docx_to_pdf_docker` (lines 201-250): raises (as an
`Except.error` message) when docker is not on the PATH or when the
container run exits nonzero; succeeds otherwise. -/
def convert_docx_to_pdf_docker (env : PdfEnv) : Except String Unit :=
  if !env.dockerOnPath then
    Except.error "Docker не установлен или не доступен в PATH"
  else if env.dockerRunOk then
    Except.ok ()
  else
    Except.error "Ошибка при конвертации через Docker"

/-- The two conversion attempts the bridge can make. -/
inductive Attempt where
  | container
  | fallback
deriving DecidableEq

/-- The observable result of the PDF stage: which attempts ran (in
order), the exit code (none on success), whether a PDF was produced,
and everything printed. -/
structure PdfResult where
  attempts : List Attempt := []
  exitCode : Option Nat := none
  pdfCreated : Bool := false
  messages : List String := []
deriving DecidableEq

/-- Lines 274-299 of `__main__`: try the docker conversion; on its
`RuntimeError` fall back to importing `docx2pdf` and converting with
it; if the import fails, print the two remediation options and exit 1;
if the fallback conversion raises, print the recommendation list and
exit 1. -/
def pdfStage (env : PdfEnv) (pdf_file : String) : PdfResult :=
  match convert_docx_to_pdf_docker env with
  | .ok _ =>
    { attempts := [.container]
      pdfCreated := true
      messages := ["PDF версия создана: " ++ pdf_file] }
  | .error e =>
    let msgs0 := ["Попытка через Docker не удалась: " ++ e,
                  "Пробую альтернативный метод через docx2pdf..."]
    if !env.docx2pdfInstalled then
      { attempts := [.container, .fallback]
        exitCode := some 1
        messages := msgs0 ++
          ["Ошибка: для создания PDF необходимо:",
           "  1. Установить Docker и образ: docker pull linuxserver/libreoffice:latest",
           "  2. Или установить библиотеку docx2pdf: pip install docx2pdf"] }
    else if env.docx2pdfOk then
      { attempts := [.container, .fallback]
        pdfCreated := true
        messages := msgs0 ++ ["PDF версия создана: " ++ pdf_file] }
    else
      { attempts := [.container, .fallback]
        exitCode := some 1
        messages := msgs0 ++
          ["Ошибка при конвертации в PDF",
           "Рекомендации:",
           "  1. Установите Docker: https://docs.docker.com/get-docker/",
           "  2. Загрузите образ: docker pull linuxserver/libreoffice:latest",
           "  3. Или установите LibreOffice локально и используйте docx2pdf"] }

/-- The muted gray color `(100, 100, 100)` used for contact and period runs. -/
def isGray : Option (Nat × Nat × Nat) → Bool
  | some (100, 100, 100) => true
  | _ => false

/-- The accent color `(0, 51, 102)` used for section headers. -/
def isAccent : Option (Nat × Nat × Nat) → Bool
  | some (0, 51, 102) => true
  | _ => false

/-- A contact-line paragraph: not a heading, explicitly left-aligned,
one run at 10pt non-bold non-italic muted gray.  In the generated
document only the contact line has this shape (the only other
paragraph with an explicit alignment is the name heading). -/
def isContactPara (p : Para) : Bool :=
  !p.isHeading && p.alignLeft &&
    (match p.runs with
     | [r] => r.size == some 10 && !r.bold && !r.italic && isGray r.color
     | _ => false)

/-- A section-header paragraph: one run at 14pt bold in the accent
color.  Only `add_section_header` produces this shape. -/
def isSectionHeaderPara (p : Para) : Bool :=
  match p.runs with
  | [r] => r.size == some 14 && r.bold && isAccent r.color
  | _ => false

/-- A bullet paragraph: uses the `List Bullet` style. -/
def isBulletPara (p : Para) : Bool :=
  p.style == some "List Bullet"

/-- A plain 11pt body paragraph: no bullet style, a single run at 11pt,
non-bold, non-italic, uncolored.  Within one experience entry only the
plain description paragraph has this shape. -/
def isBodyPara (p : Para) : Bool :=
  !p.isHeading && p.style == none &&
    (match p.runs with
     | [r] => r.size == some 11 && !r.bold && !r.italic && r.color == none
     | _ => false)

/-- The bold 12pt position/company (or degree/school) line. -/
def isTitlePara (p : Para) : Bool :=
  match p.runs with
  | [r] => r.size == some 12 && r.bold
  | _ => false

/-- The italic 10pt gray period line. -/
def isPeriodPara (p : Para) : Bool :=
  match p.runs with
  | [r] => r.size == some 10 && r.italic && isGray r.color
  | _ => false

/-- The block-level signature of a paragraph: the name heading, the
contact line, or a section header carrying its text; every other
paragraph is unclassified. -/
inductive BlockTag where
  | nameHeading
  | contactLine
  | sectionHead (title : String)
deriving DecidableEq

/-- Classifies a paragraph by its block-level signature. -/
def tagOf (p : Para) : Option BlockTag :=
  if p.isHeading then some BlockTag.nameHeading
  else if isContactPara p then some BlockTag.contactLine
  else match p.runs with
    | [r] =>
      if r.size == some 14 && r.bold && isAccent r.color then
        some (BlockTag.sectionHead r.text)
      else none
    | _ => none

theorem tagOf_add_heading (t : String) (l s : Nat) (b : Bool) :
    tagOf (add_heading t l s b) = some BlockTag.nameHeading := rfl

theorem tagOf_contactPara (t : String) :
    tagOf (contactPara t) = some BlockTag.contactLine := rfl

theorem tagOf_add_section_header (t : String) :
    tagOf (add_section_header t) = some (BlockTag.sectionHead t) := rfl

theorem tagOf_emptyPara : tagOf emptyPara = none := rfl

theorem tagOf_titlePara (t : String) : tagOf (titlePara t) = none := rfl

theorem tagOf_periodPara (t : String) : tagOf (periodPara t) = none := rfl

theorem tagOf_add_bullet_point (t : String) (i : Nat) :
    tagOf (add_bullet_point t i) = none := rfl

theorem tagOf_body (t : String) :
    tagOf (add_paragraph_with_style t 11 false none) = none := rfl

theorem tagOf_sectionItemPara (it : SectionItem) :
    tagOf (sectionItemPara it) = none := by
  cases it <;> rfl

theorem filterMap_flatten_map_nil {α β γ : Type} (g : β → Option γ) (f : α → List β)
    (h : ∀ a, (f a).filterMap g = []) (l : List α) :
    ((l.map f).flatten).filterMap g = [] := by
  induction l with
  | nil => rfl
  | cons a l ih => simp [List.filterMap_append, h a, ih]

theorem filterMap_flatten_map_one {α β γ : Type} (g : β → Option γ) (f : α → List β)
    (g' : α → γ) (h : ∀ a, (f a).filterMap g = [g' a]) (l : List α) :
    ((l.map f).flatten).filterMap g = l.map g' := by
  induction l with
  | nil => rfl
  | cons a l ih => simp [List.filterMap_append, h a, ih]

theorem filterMap_tagOf_periodParas (o : Option String) :
    (periodParas o).filterMap tagOf = [] := by
  unfold periodParas
  split <;> simp [List.filterMap, tagOf_periodPara]

theorem filterMap_tagOf_bullets (xs : List String) :
    (xs.map (fun item => add_bullet_point item 1)).filterMap tagOf = [] := by
  induction xs with
  | nil => rfl
  | cons a xs ih => simp [List.filterMap_cons, tagOf_add_bullet_point, ih]

theorem filterMap_tagOf_items (items : List SectionItem) :
    (items.map sectionItemPara).filterMap tagOf = [] := by
  induction items with
  | nil => rfl
  | cons a l ih => simp [List.filterMap_cons, tagOf_sectionItemPara, ih]

theorem filterMap_tagOf_descriptionParas (d : Option StrOrList) :
    (descriptionParas d).filterMap tagOf = [] := by
  match d with
  | none => rfl
  | some (.str s) =>
    cases h : (StrOrList.str s).truthy <;>
      simp [descriptionParas, h, List.filterMap_cons, tagOf_body]
  | some (.list xs) =>
    cases h : (StrOrList.list xs).truthy
    · simp [descriptionParas, h]
    · simp [descriptionParas, h]
      exact fun a _ => tagOf_add_bullet_point a 1

theorem filterMap_tagOf_experienceEntry (e : Experience) :
    (experienceEntryBlock e).filterMap tagOf = [] := by
  simp [experienceEntryBlock, List.filterMap_append, List.filterMap,
    tagOf_titlePara, tagOf_emptyPara, filterMap_tagOf_periodParas,
    filterMap_tagOf_descriptionParas]

theorem filterMap_tagOf_educationEntry (e : Education) :
    (educationEntryBlock e).filterMap tagOf = [] := by
  simp [educationEntryBlock, List.filterMap_append, List.filterMap,
    tagOf_titlePara, tagOf_emptyPara, filterMap_tagOf_periodParas]

theorem filterMap_tagOf_sectionBlock (sec : ResumeSection) :
    (sectionBlock sec).filterMap tagOf =
      [BlockTag.sectionHead (sec.title.getD "Раздел")] := by
  match h : sec.content with
  | some (.list items) =>
    simp [sectionBlock, h, List.filterMap_append, List.filterMap_cons,
      tagOf_add_section_header, tagOf_emptyPara]
    exact fun a _ => tagOf_sectionItemPara a
  | some (.str s) =>
    simp [sectionBlock, h, List.filterMap_append, List.filterMap_cons,
      tagOf_add_section_header, tagOf_emptyPara, tagOf_body]
  | none =>
    simp [sectionBlock, h, List.filterMap_append, List.filterMap_cons,
      tagOf_add_section_header, tagOf_emptyPara, tagOf_body]

/-- Python truthiness of `data.get(key)` for an optional list value. -/
def truthyOptList {α : Type} (o : Option (List α)) : Bool :=
  match o with
  | some xs => !xs.isEmpty
  | none => false

/-- Python truthiness of `data.get('skills')`. -/
def truthyOptSOL (o : Option StrOrList) : Bool :=
  match o with
  | some v => v.truthy
  | none => false

theorem filterMap_tagOf_nameBlock (d : ResumeData) :
    (nameBlock d).filterMap tagOf = [BlockTag.nameHeading] := rfl

theorem filterMap_tagOf_contactBlock (d : ResumeData)
    (h : (contact_info (d.personal_info.getD {})).isEmpty = false) :
    (contactBlock d).filterMap tagOf = [BlockTag.contactLine] := by
  simp [contactBlock, h, List.filterMap_cons, tagOf_contactPara]

theorem filterMap_tagOf_summaryBlock (d : ResumeData)
    (h : truthyStr d.summary = true) :
    (summaryBlock d).filterMap tagOf = [BlockTag.sectionHead "О себе"] := by
  simp [summaryBlock, h, List.filterMap_cons, tagOf_add_section_header,
    tagOf_body, tagOf_emptyPara]

theorem filterMap_tagOf_experienceBlock (d : ResumeData)
    (h : truthyOptList d.experience = true) :
    (experienceBlock d).filterMap tagOf = [BlockTag.sectionHead "Опыт работы"] := by
  match hd : d.experience with
  | none => simp [truthyOptList, hd] at h
  | some es =>
    have hne : es.isEmpty = false := by simpa [truthyOptList, hd] using h
    simp [experienceBlock, hd, hne, List.filterMap_cons, tagOf_add_section_header,
      filterMap_flatten_map_nil tagOf experienceEntryBlock filterMap_tagOf_experienceEntry]

theorem filterMap_tagOf_educationBlock (d : ResumeData)
    (h : truthyOptList d.education = true) :
    (educationBlock d).filterMap tagOf = [BlockTag.sectionHead "Образование"] := by
  match hd : d.education with
  | none => simp [truthyOptList, hd] at h
  | some es =>
    have hne : es.isEmpty = false := by simpa [truthyOptList, hd] using h
    simp [educationBlock, hd, hne, List.filterMap_cons, tagOf_add_section_header,
      filterMap_flatten_map_nil tagOf educationEntryBlock filterMap_tagOf_educationEntry]

theorem filterMap_tagOf_skillsBlock (d : ResumeData)
    (h : truthyOptSOL d.skills = true) :
    (skillsBlock d).filterMap tagOf = [BlockTag.sectionHead "Навыки"] := by
  match hd : d.skills with
  | none => simp [truthyOptSOL, hd] at h
  | some sk =>
    have ht : sk.truthy = true := by simpa [truthyOptSOL, hd] using h
    simp [skillsBlock, hd, ht, List.filterMap_cons, tagOf_add_section_header,
      tagOf_body, tagOf_emptyPara]

theorem filterMap_tagOf_additionalBlock (d : ResumeData)
    (h : truthyOptList d.additional_sections = true) :
    (additionalBlock d).filterMap tagOf =
      (d.additional_sections.getD []).map
        (fun s => BlockTag.sectionHead (s.title.getD "Раздел")) := by
  match hd : d.additional_sections with
  | none => simp [truthyOptList, hd] at h
  | some secs =>
    have hne : secs.isEmpty = false := by simpa [truthyOptList, hd] using h
    simp [additionalBlock, hd, hne,
      filterMap_flatten_map_one tagOf sectionBlock
        (fun s => BlockTag.sectionHead (s.title.getD "Раздел"))
        filterMap_tagOf_sectionBlock]

/-- C1: for a record in which every optional top-level field is
populated (at least one contact field present, truthy summary,
experience, education, skills and additional sections), the assembled
document contains exactly one name heading, exactly one contact line,
and exactly one section header per populated field, and these blocks
appear in the fixed order name/contact, summary ("О себе"), experience
("Опыт работы"), education ("Образование"), skills ("Навыки"),
then one header per additional section in input order. -/
theorem c1_blocks_order (d : ResumeData)
    (hci : (contact_info (d.personal_info.getD {})).isEmpty = false)
    (hsum : truthyStr d.summary = true)
    (hexp : truthyOptList d.experience = true)
    (hedu : truthyOptList d.education = true)
    (hsk : truthyOptSOL d.skills = true)
    (hadd : truthyOptList d.additional_sections = true) :
    (buildDoc d).filterMap tagOf =
      [BlockTag.nameHeading, BlockTag.contactLine, BlockTag.sectionHead "О себе",
       BlockTag.sectionHead "Опыт работы", BlockTag.sectionHead "Образование",
       BlockTag.sectionHead "Навыки"] ++
        (d.additional_sections.getD []).map
          (fun s => BlockTag.sectionHead (s.title.getD "Раздел")) := by
  simp [buildDoc, List.filterMap_append, List.filterMap_cons, tagOf_emptyPara,
    filterMap_tagOf_nameBlock, filterMap_tagOf_contactBlock d hci,
    filterMap_tagOf_summaryBlock d hsum, filterMap_tagOf_experienceBlock d hexp,
    filterMap_tagOf_educationBlock d hedu, filterMap_tagOf_skillsBlock d hsk,
    filterMap_tagOf_additionalBlock d hadd]

/-- A concrete record with every optional field populated. -/
def sampleData : ResumeData :=
  { personal_info := some { name := some "Иван Петров", email := some "ivan@example.com",
                            phone := some "+7 900 000-00-00" }
    summary := some "Опытный инженер."
    experience := some [{ position := some "Разработчик", company := some "ACME",
                          period := some "2020-2024",
                          description := some (.list ["Писал код", "Чинил баги"]) }]
    education := some [{ degree := some "Магистр", school := some "МГУ",
                         period := some "2014-2020" }]
    skills := some (.list ["Python", "Go", "Rust"])
    additional_sections := some [{ title := some "Языки",
                                   content := some (.str "Русский, английский") }] }

theorem c1_blocks_order_witness :
    (buildDoc sampleData).filterMap tagOf =
      [BlockTag.nameHeading, BlockTag.contactLine, BlockTag.sectionHead "О себе",
       BlockTag.sectionHead "Опыт работы", BlockTag.sectionHead "Образование",
       BlockTag.sectionHead "Навыки"] ++
        (sampleData.additional_sections.getD []).map
          (fun s => BlockTag.sectionHead (s.title.getD "Раздел")) :=
  c1_blocks_order sampleData (by decide) (by decide) (by decide) (by decide)
    (by decide) (by decide)

theorem filter_flatten_map_nil {α β : Type} (q : β → Bool) (f : α → List β)
    (h : ∀ a, (f a).filter q = []) (l : List α) :
    ((l.map f).flatten).filter q = [] := by
  induction l with
  | nil => rfl
  | cons a l ih => simp [List.filter_append, h a, ih]

theorem ic_add_heading (t : String) (l s : Nat) (b : Bool) :
    isContactPara (add_heading t l s b) = false := rfl

theorem ic_contactPara (t : String) : isContactPara (contactPara t) = true := rfl

theorem ic_add_section_header (t : String) :
    isContactPara (add_section_header t) = false := rfl

theorem ic_emptyPara : isContactPara emptyPara = false := rfl

theorem ic_titlePara (t : String) : isContactPara (titlePara t) = false := rfl

theorem ic_periodPara (t : String) : isContactPara (periodPara t) = false := rfl

theorem ic_add_bullet_point (t : String) (i : Nat) :
    isContactPara (add_bullet_point t i) = false := rfl

theorem ic_add_paragraph_with_style (t : String) (s : Nat) (b : Bool)
    (c : Option (Nat × Nat × Nat)) :
    isContactPara (add_paragraph_with_style t s b c) = false := rfl

theorem ic_sectionItemPara (it : SectionItem) :
    isContactPara (sectionItemPara it) = false := by
  cases it <;> rfl

theorem filter_ic_periodParas (o : Option String) :
    (periodParas o).filter isContactPara = [] := by
  unfold periodParas
  split <;> simp [List.filter_cons, ic_periodPara]

theorem filter_ic_descriptionParas (d : Option StrOrList) :
    (descriptionParas d).filter isContactPara = [] := by
  match d with
  | none => rfl
  | some (.str s) =>
    cases h : (StrOrList.str s).truthy <;>
      simp [descriptionParas, h, List.filter_cons, ic_add_paragraph_with_style]
  | some (.list xs) =>
    cases h : (StrOrList.list xs).truthy
    · simp [descriptionParas, h]
    · simp [descriptionParas, h, List.filter_eq_nil_iff]
      exact fun a _ => by simp [ic_add_bullet_point]

theorem filter_ic_experienceEntry (e : Experience) :
    (experienceEntryBlock e).filter isContactPara = [] := by
  simp [experienceEntryBlock, List.filter_append, List.filter_cons, ic_titlePara,
    ic_emptyPara, filter_ic_periodParas, filter_ic_descriptionParas]

theorem filter_ic_educationEntry (e : Education) :
    (educationEntryBlock e).filter isContactPara = [] := by
  simp [educationEntryBlock, List.filter_append, List.filter_cons, ic_titlePara,
    ic_emptyPara, filter_ic_periodParas]

theorem filter_ic_sectionBlock (sec : ResumeSection) :
    (sectionBlock sec).filter isContactPara = [] := by
  match h : sec.content with
  | some (.list items) =>
    simp [sectionBlock, h, List.filter_append, List.filter_cons,
      ic_add_section_header, ic_emptyPara, List.filter_eq_nil_iff]
    exact fun a _ => by simp [ic_sectionItemPara]
  | some (.str s) =>
    simp [sectionBlock, h, List.filter_append, List.filter_cons,
      ic_add_section_header, ic_emptyPara, ic_add_paragraph_with_style]
  | none =>
    simp [sectionBlock, h, List.filter_append, List.filter_cons,
      ic_add_section_header, ic_emptyPara, ic_add_paragraph_with_style]

theorem filter_ic_summaryBlock (d : ResumeData) :
    (summaryBlock d).filter isContactPara = [] := by
  cases h : truthyStr d.summary <;>
    simp [summaryBlock, h, List.filter_cons, ic_add_section_header,
      ic_add_paragraph_with_style, ic_emptyPara]

theorem filter_ic_experienceBlock (d : ResumeData) :
    (experienceBlock d).filter isContactPara = [] := by
  match hd : d.experience with
  | none => simp [experienceBlock, hd]
  | some es =>
    cases he : es.isEmpty <;>
      simp [experienceBlock, hd, he, List.filter_cons, ic_add_section_header,
        filter_flatten_map_nil isContactPara experienceEntryBlock filter_ic_experienceEntry]

theorem filter_ic_educationBlock (d : ResumeData) :
    (educationBlock d).filter isContactPara = [] := by
  match hd : d.education with
  | none => simp [educationBlock, hd]
  | some es =>
    cases he : es.isEmpty <;>
      simp [educationBlock, hd, he, List.filter_cons, ic_add_section_header,
        filter_flatten_map_nil isContactPara educationEntryBlock filter_ic_educationEntry]

theorem filter_ic_skillsBlock (d : ResumeData) :
    (skillsBlock d).filter isContactPara = [] := by
  match hd : d.skills with
  | none => simp [skillsBlock, hd]
  | some sk =>
    cases ht : sk.truthy <;>
      simp [skillsBlock, hd, ht, List.filter_cons, ic_add_section_header,
        ic_add_paragraph_with_style, ic_emptyPara]

theorem filter_ic_additionalBlock (d : ResumeData) :
    (additionalBlock d).filter isContactPara = [] := by
  match hd : d.additional_sections with
  | none => simp [additionalBlock, hd]
  | some secs =>
    cases he : secs.isEmpty <;>
      simp [additionalBlock, hd, he,
        filter_flatten_map_nil isContactPara sectionBlock filter_ic_sectionBlock]

/-- C3: the assembled document contains the contact paragraph exactly
when at least one contact field (email, phone, location, linkedin,
github) is present and non-empty; that paragraph is the single
paragraph whose text joins exactly the present labelled fields with
" | " (absent fields contribute neither text nor separator, by the
definition of `contact_info`); when no contact field is present, no
contact paragraph at all is emitted. -/
theorem c3_contact_line (d : ResumeData) :
    (buildDoc d).filter isContactPara =
      (if (contact_info (d.personal_info.getD {})).isEmpty then []
       else [contactPara
         (String.intercalate " | " (contact_info (d.personal_info.getD {})))]) := by
  have hname : (nameBlock d).filter isContactPara = [] := by
    simp [nameBlock, List.filter_cons, ic_add_heading]
  have hcontact : (contactBlock d).filter isContactPara =
      (if (contact_info (d.personal_info.getD {})).isEmpty then []
       else [contactPara
         (String.intercalate " | " (contact_info (d.personal_info.getD {})))]) := by
    cases hc : (contact_info (d.personal_info.getD {})).isEmpty <;>
      simp [contactBlock, hc, List.filter_cons, ic_contactPara]
  simp [buildDoc, List.filter_append, hname, hcontact, List.filter_cons,
    ic_emptyPara, filter_ic_summaryBlock, filter_ic_experienceBlock,
    filter_ic_educationBlock, filter_ic_skillsBlock, filter_ic_additionalBlock]

theorem ib_add_bullet_point (t : String) (i : Nat) :
    isBulletPara (add_bullet_point t i) = true := rfl

theorem ib_titlePara (t : String) : isBulletPara (titlePara t) = false := rfl

theorem ib_periodPara (t : String) : isBulletPara (periodPara t) = false := rfl

theorem ib_body (t : String) (s : Nat) (b : Bool) (c : Option (Nat × Nat × Nat)) :
    isBulletPara (add_paragraph_with_style t s b c) = false := rfl

theorem ib_emptyPara : isBulletPara emptyPara = false := rfl

theorem ibody_body (t : String) :
    isBodyPara (add_paragraph_with_style t 11 false none) = true := rfl

theorem ibody_titlePara (t : String) : isBodyPara (titlePara t) = false := rfl

theorem ibody_periodPara (t : String) : isBodyPara (periodPara t) = false := rfl

theorem ibody_add_bullet_point (t : String) (i : Nat) :
    isBodyPara (add_bullet_point t i) = false := rfl

theorem ibody_emptyPara : isBodyPara emptyPara = false := rfl

theorem it_titlePara (t : String) : isTitlePara (titlePara t) = true := rfl

theorem it_periodPara (t : String) : isTitlePara (periodPara t) = false := rfl

theorem it_add_bullet_point (t : String) (i : Nat) :
    isTitlePara (add_bullet_point t i) = false := rfl

theorem it_body (t : String) :
    isTitlePara (add_paragraph_with_style t 11 false none) = false := rfl

theorem it_emptyPara : isTitlePara emptyPara = false := rfl

theorem ip_periodPara (t : String) : isPeriodPara (periodPara t) = true := rfl

theorem ip_titlePara (t : String) : isPeriodPara (titlePara t) = false := rfl

theorem ip_add_bullet_point (t : String) (i : Nat) :
    isPeriodPara (add_bullet_point t i) = false := rfl

theorem ip_body (t : String) :
    isPeriodPara (add_paragraph_with_style t 11 false none) = false := rfl

theorem ip_emptyPara : isPeriodPara emptyPara = false := rfl

theorem filter_ib_bullets (xs : List String) :
    (xs.map (fun item => add_bullet_point item 1)).filter isBulletPara =
      xs.map (fun item => add_bullet_point item 1) := by
  induction xs with
  | nil => rfl
  | cons a xs ih => simp [List.filter_cons, ib_add_bullet_point, ih]

theorem filter_ib_periodParas (o : Option String) :
    (periodParas o).filter isBulletPara = [] := by
  unfold periodParas
  split <;> simp [List.filter_cons, ib_periodPara]

theorem filter_ibody_periodParas (o : Option String) :
    (periodParas o).filter isBodyPara = [] := by
  unfold periodParas
  split <;> simp [List.filter_cons, ibody_periodPara]

theorem filter_it_periodParas (o : Option String) :
    (periodParas o).filter isTitlePara = [] := by
  unfold periodParas
  split <;> simp [List.filter_cons, it_periodPara]

theorem filter_it_descriptionParas (d : Option StrOrList) :
    (descriptionParas d).filter isTitlePara = [] := by
  match d with
  | none => rfl
  | some (.str s) =>
    cases h : (StrOrList.str s).truthy <;>
      simp [descriptionParas, h, List.filter_cons, it_body]
  | some (.list xs) =>
    cases h : (StrOrList.list xs).truthy
    · simp [descriptionParas, h]
    · simp [descriptionParas, h, List.filter_eq_nil_iff]
      exact fun a _ => by simp [it_add_bullet_point]

theorem filter_ip_descriptionParas (d : Option StrOrList) :
    (descriptionParas d).filter isPeriodPara = [] := by
  match d with
  | none => rfl
  | some (.str s) =>
    cases h : (StrOrList.str s).truthy <;>
      simp [descriptionParas, h, List.filter_cons, ip_body]
  | some (.list xs) =>
    cases h : (StrOrList.list xs).truthy
    · simp [descriptionParas, h]
    · simp [descriptionParas, h, List.filter_eq_nil_iff]
      exact fun a _ => by simp [ip_add_bullet_point]

/-- C2 (amended): within one experience entry, a list-valued
description renders as exactly one indented (`indent=1`) bullet
paragraph per element, in order; a non-empty string-valued description
renders as exactly one plain 11pt body paragraph carrying that string.
(An empty-string description is falsy in Python and renders nothing;
see the counterexample.) -/
theorem c2_description_rendering (e : Experience) :
    (∀ xs, e.description = some (StrOrList.list xs) →
      (experienceEntryBlock e).filter isBulletPara =
        xs.map (fun item => add_bullet_point item 1)) ∧
    (∀ s, e.description = some (StrOrList.str s) → s ≠ "" →
      (experienceEntryBlock e).filter isBodyPara =
        [add_paragraph_with_style s 11 false none]) := by
  constructor
  · intro xs h
    cases hxs : (StrOrList.list xs).truthy
    · have : xs = [] := by
        simpa [StrOrList.truthy, List.isEmpty_iff] using hxs
      subst this
      simp [experienceEntryBlock, List.filter_append, List.filter_cons,
        ib_titlePara, ib_emptyPara, filter_ib_periodParas, descriptionParas, h, hxs]
    · simp [experienceEntryBlock, List.filter_append, List.filter_cons,
        ib_titlePara, ib_emptyPara, filter_ib_periodParas, descriptionParas, h, hxs,
        filter_ib_bullets]
  · intro s h hs
    have hs' : (StrOrList.str s).truthy = true := by
      simp [StrOrList.truthy, hs]
    simp [experienceEntryBlock, List.filter_append, List.filter_cons,
      ibody_titlePara, ibody_emptyPara, filter_ibody_periodParas,
      descriptionParas, h, hs', ibody_body]

theorem c2_description_rendering_witness :
    (experienceEntryBlock
        { description := some (StrOrList.list ["Писал код", "Чинил баги"]) }).filter
        isBulletPara =
      [add_bullet_point "Писал код" 1, add_bullet_point "Чинил баги" 1] ∧
    (experienceEntryBlock
        { description := some (StrOrList.str "Разработка") }).filter isBodyPara =
      [add_paragraph_with_style "Разработка" 11 false none] :=
  ⟨(c2_description_rendering
      { description := some (StrOrList.list ["Писал код", "Чинил баги"]) }).1
      ["Писал код", "Чинил баги"] rfl,
   (c2_description_rendering
      { description := some (StrOrList.str "Разработка") }).2
      "Разработка" rfl (by decide)⟩

/-- C2, as stated, is false for the empty-string description: the
claim promises exactly one plain paragraph containing the description
string, but `if exp.get('description'):` is falsy on `""`, so the
entry renders no plain 11pt body paragraph at all. -/
theorem c2_empty_description_counterexample :
    (experienceEntryBlock
        { position := some "Разработчик", company := some "ACME",
          description := some (StrOrList.str "") }).filter isBodyPara = [] := by
  decide

/-- C4 (amended): in every experience entry the position/company line
always renders, substituting the placeholder defaults "Должность" and
"Компания" for a missing position or company (so it renders even when
both are absent); a missing or empty period, however, causes the
period line to be omitted entirely rather than rendered with a
placeholder. -/
theorem c4_title_period_rendering (e : Experience) :
    (experienceEntryBlock e).filter isTitlePara =
      [titlePara (e.position.getD "Должность" ++ " | " ++ e.company.getD "Компания")] ∧
    (experienceEntryBlock e).filter isPeriodPara =
      (if e.period.getD "" == "" then [] else [periodPara (e.period.getD "")]) := by
  constructor
  · simp [experienceEntryBlock, List.filter_append, List.filter_cons, it_titlePara,
      it_emptyPara, filter_it_periodParas, filter_it_descriptionParas, titleText]
  · have hper : (periodParas e.period).filter isPeriodPara =
        (if e.period.getD "" == "" then [] else [periodPara (e.period.getD "")]) := by
      unfold periodParas
      split <;> simp [List.filter_cons, ip_periodPara]
    simp [experienceEntryBlock, List.filter_append, List.filter_cons, ip_titlePara,
      ip_emptyPara, filter_ip_descriptionParas, hper]

/-- C4, as stated, is false for the period: on an entry with no
position, no company and no period, the rendered block is exactly the
placeholder title line followed by the separator paragraph — the
position/company placeholders are used, but no period line (and no
period placeholder) is emitted. -/
theorem c4_missing_period_counterexample :
    experienceEntryBlock { } =
      [titlePara "Должность | Компания", emptyPara] := by
  decide

/-- C5: when the input file does not exist, `generate_resume` prints a
user-visible message and calls `sys.exit(1)` — a nonzero status —
before a document object even exists, so no output file is written. -/
theorem c5_missing_input (data_file output_file : String) :
    (generate_resume LoadOutcome.notFound data_file output_file).exitCode = some 1 ∧
    (generate_resume LoadOutcome.notFound data_file output_file).saved = none ∧
    (generate_resume LoadOutcome.notFound data_file output_file).messages ≠ [] := by
  refine ⟨rfl, rfl, ?_⟩
  simp [generate_resume]

/-- C6: the `.docx` extension is appended exactly once when the
supplied output name lacks it, a name already ending in `.docx` is
used unchanged, and on a successful run the document is saved exactly
at the resulting path. -/
theorem c6_output_extension (name data_file : String) (data : ResumeData) :
    (endsWithDocx name = false → normalizeOutput name = name ++ ".docx") ∧
    (endsWithDocx name = true → normalizeOutput name = name) ∧
    (mainRun (LoadOutcome.ok data) data_file name).saved =
      some (normalizeOutput name, buildDoc data) := by
  refine ⟨fun h => ?_, fun h => ?_, rfl⟩
  · simp [normalizeOutput, h]
  · simp [normalizeOutput, h]

theorem c6_output_extension_witness :
    normalizeOutput "resume" = "resume" ++ ".docx" ∧
    normalizeOutput "cv.docx" = "cv.docx" ∧
    (mainRun (LoadOutcome.ok ({} : ResumeData)) "resume_data.json" "resume").saved =
      some (normalizeOutput "resume", buildDoc ({} : ResumeData)) :=
  ⟨(c6_output_extension "resume" "resume_data.json" ({} : ResumeData)).1 (by decide),
   (c6_output_extension "cv.docx" "resume_data.json" ({} : ResumeData)).2.1 (by decide),
   (c6_output_extension "resume" "resume_data.json" ({} : ResumeData)).2.2⟩

/-- C7: the PDF bridge performs the container attempt exactly once and
the local fallback attempt exactly once more only when the container
attempt failed (engine absent or nonzero container exit); when the
container attempt succeeds the fallback never runs.  In particular the
attempt sequence is strictly forward, with no retries. -/
theorem c7_pdf_attempts (env : PdfEnv) (pdf_file : String) :
    (pdfStage env pdf_file).attempts =
      (if env.dockerOnPath && env.dockerRunOk then [Attempt.container]
       else [Attempt.container, Attempt.fallback]) := by
  cases hdp : env.dockerOnPath <;> cases hdr : env.dockerRunOk <;>
    cases hin : env.docx2pdfInstalled <;> cases hok : env.docx2pdfOk <;>
      simp [pdfStage, convert_docx_to_pdf_docker, hdp, hdr, hin, hok]

/-- C8: when the container engine is not on the PATH and the fallback
library cannot be imported, the PDF stage exits with status 1 and its
output names both remediation options: installing docker with the
LibreOffice image, and installing `docx2pdf`. -/
theorem c8_pdf_failure_guidance (env : PdfEnv) (pdf_file : String)
    (hdp : env.dockerOnPath = false) (hin : env.docx2pdfInstalled = false) :
    (pdfStage env pdf_file).exitCode = some 1 ∧
    "  1. Установить Docker и образ: docker pull linuxserver/libreoffice:latest" ∈
      (pdfStage env pdf_file).messages ∧
    "  2. Или установить библиотеку docx2pdf: pip install docx2pdf" ∈
      (pdfStage env pdf_file).messages := by
  refine ⟨?_, ?_, ?_⟩ <;>
    simp [pdfStage, convert_docx_to_pdf_docker, hdp, hin]

theorem c8_pdf_failure_guidance_witness :
    (pdfStage ⟨false, false, false, false⟩ "resume.pdf").exitCode = some 1 ∧
    "  1. Установить Docker и образ: docker pull linuxserver/libreoffice:latest" ∈
      (pdfStage ⟨false, false, false, false⟩ "resume.pdf").messages ∧
    "  2. Или установить библиотеку docx2pdf: pip install docx2pdf" ∈
      (pdfStage ⟨false, false, false, false⟩ "resume.pdf").messages :=
  c8_pdf_failure_guidance ⟨false, false, false, false⟩ "resume.pdf" rfl rfl

/-- Every run of the paragraph carries Calibri on both the Latin slot
(`run.font.name`) and the East-Asian slot (`w:eastAsia`). -/
def checkFonts (p : Para) : Bool :=
  p.runs.all (fun r => r.fontName == some "Calibri" && r.eastAsiaFont == some "Calibri")

theorem cfPara_add_heading (t : String) (l s : Nat) (b : Bool) :
    checkFonts (add_heading t l s b) = true := rfl

theorem cfPara_contactPara (t : String) : checkFonts (contactPara t) = true := rfl

theorem cfPara_add_section_header (t : String) :
    checkFonts (add_section_header t) = true := rfl

theorem cfPara_body (t : String) (s : Nat) (b : Bool) (c : Option (Nat × Nat × Nat)) :
    checkFonts (add_paragraph_with_style t s b c) = true := rfl

theorem cfPara_add_bullet_point (t : String) (i : Nat) :
    checkFonts (add_bullet_point t i) = true := rfl

theorem cfPara_titlePara (t : String) : checkFonts (titlePara t) = true := rfl

theorem cfPara_periodPara (t : String) : checkFonts (periodPara t) = true := rfl

theorem cfPara_emptyPara : checkFonts emptyPara = true := rfl

theorem cfPara_sectionItemPara (it : SectionItem) :
    checkFonts (sectionItemPara it) = true := by
  cases it <;> rfl

theorem all_flatten_map {α β : Type} (q : β → Bool) (f : α → List β)
    (h : ∀ a, (f a).all q = true) (l : List α) :
    ((l.map f).flatten).all q = true := by
  induction l with
  | nil => rfl
  | cons a l ih => simp [List.all_append, h a, ih]

theorem cf_periodParas (o : Option String) :
    (periodParas o).all checkFonts = true := by
  unfold periodParas
  split <;> simp [cfPara_periodPara]

theorem cf_descriptionParas (d : Option StrOrList) :
    (descriptionParas d).all checkFonts = true := by
  match d with
  | none => rfl
  | some (.str s) =>
    cases h : (StrOrList.str s).truthy <;>
      simp [descriptionParas, h, cfPara_body]
  | some (.list xs) =>
    cases h : (StrOrList.list xs).truthy
    · simp [descriptionParas, h]
    · simp [descriptionParas, h, List.all_eq_true]
      exact fun a _ => cfPara_add_bullet_point a 1

theorem cf_experienceEntry (e : Experience) :
    (experienceEntryBlock e).all checkFonts = true := by
  simp [experienceEntryBlock, List.all_append, cfPara_titlePara, cfPara_emptyPara,
    cf_periodParas, cf_descriptionParas]

theorem cf_educationEntry (e : Education) :
    (educationEntryBlock e).all checkFonts = true := by
  simp [educationEntryBlock, List.all_append, cfPara_titlePara, cfPara_emptyPara,
    cf_periodParas]

theorem cf_sectionBlock (sec : ResumeSection) :
    (sectionBlock sec).all checkFonts = true := by
  match h : sec.content with
  | some (.list items) =>
    simp [sectionBlock, h, List.all_append, cfPara_add_section_header,
      cfPara_emptyPara, List.all_eq_true]
    exact fun a _ => cfPara_sectionItemPara a
  | some (.str s) =>
    simp [sectionBlock, h, List.all_append, cfPara_add_section_header,
      cfPara_emptyPara, cfPara_body]
  | none =>
    simp [sectionBlock, h, List.all_append, cfPara_add_section_header,
      cfPara_emptyPara, cfPara_body]

theorem cf_summaryBlock (d : ResumeData) :
    (summaryBlock d).all checkFonts = true := by
  cases h : truthyStr d.summary <;>
    simp [summaryBlock, h, cfPara_add_section_header, cfPara_body, cfPara_emptyPara]

theorem cf_experienceBlock (d : ResumeData) :
    (experienceBlock d).all checkFonts = true := by
  match hd : d.experience with
  | none => simp [experienceBlock, hd]
  | some es =>
    cases he : es.isEmpty <;>
      simp [experienceBlock, hd, he, cfPara_add_section_header,
        all_flatten_map checkFonts experienceEntryBlock cf_experienceEntry]

theorem cf_educationBlock (d : ResumeData) :
    (educationBlock d).all checkFonts = true := by
  match hd : d.education with
  | none => simp [educationBlock, hd]
  | some es =>
    cases he : es.isEmpty <;>
      simp [educationBlock, hd, he, cfPara_add_section_header,
        all_flatten_map checkFonts educationEntryBlock cf_educationEntry]

theorem cf_skillsBlock (d : ResumeData) :
    (skillsBlock d).all checkFonts = true := by
  match hd : d.skills with
  | none => simp [skillsBlock, hd]
  | some sk =>
    cases ht : sk.truthy <;>
      simp [skillsBlock, hd, ht, cfPara_add_section_header, cfPara_body,
        cfPara_emptyPara]

theorem cf_additionalBlock (d : ResumeData) :
    (additionalBlock d).all checkFonts = true := by
  match hd : d.additional_sections with
  | none => simp [additionalBlock, hd]
  | some secs =>
    cases he : secs.isEmpty <;>
      simp [additionalBlock, hd, he,
        all_flatten_map checkFonts sectionBlock cf_sectionBlock]

/-- C9: every text run the assembler inserts — headings, contact line,
section headers, titles, periods, bodies, bullets and key/value runs —
carries the chosen font (Calibri) on the East-Asian/complex-script
font slot as well as on the Latin slot, because every run passes
through `set_run_font`, which binds `w:eastAsia` to the same name. -/
theorem c9_east_asia_font (d : ResumeData) :
    (buildDoc d).all checkFonts = true := by
  simp [buildDoc, List.all_append, cf_summaryBlock, cf_experienceBlock,
    cf_educationBlock, cf_skillsBlock, cf_additionalBlock, cf_periodParas,
    cfPara_emptyPara, cfPara_contactPara, nameBlock, cfPara_add_heading]
  have hc : (contactBlock d).all checkFonts = true := by
    cases hce : (contact_info (d.personal_info.getD {})).isEmpty <;>
      simp [contactBlock, hce, cfPara_contactPara]
  simpa using hc

/-- Replaces every present-but-empty top-level value (empty string
summary, empty lists, empty string or empty list skills) by an absent
field, leaving everything else unchanged. -/
def emptyToAbsent (d : ResumeData) : ResumeData :=
  { d with
    summary := if d.summary = some "" then none else d.summary
    experience := if d.experience = some [] then none else d.experience
    education := if d.education = some [] then none else d.education
    skills := if d.skills = some (.str "") ∨ d.skills = some (.list []) then none
      else d.skills
    additional_sections :=
      if d.additional_sections = some [] then none else d.additional_sections }

theorem summaryBlock_emptyToAbsent (d : ResumeData) :
    summaryBlock (emptyToAbsent d) = summaryBlock d := by
  have h : (emptyToAbsent d).summary =
      (if d.summary = some "" then none else d.summary) := rfl
  rcases hd : d.summary with _ | s
  · simp [summaryBlock, h, hd, truthyStr]
  · by_cases hs : s = ""
    · subst hs
      simp [summaryBlock, h, hd, truthyStr]
    · simp [summaryBlock, h, hd, hs, truthyStr]

theorem experienceBlock_emptyToAbsent (d : ResumeData) :
    experienceBlock (emptyToAbsent d) = experienceBlock d := by
  have h : (emptyToAbsent d).experience =
      (if d.experience = some [] then none else d.experience) := rfl
  rcases hd : d.experience with _ | es
  · simp [experienceBlock, h, hd]
  · rcases es with _ | ⟨e, es⟩
    · simp [experienceBlock, h, hd]
    · simp [experienceBlock, h, hd]

theorem educationBlock_emptyToAbsent (d : ResumeData) :
    educationBlock (emptyToAbsent d) = educationBlock d := by
  have h : (emptyToAbsent d).education =
      (if d.education = some [] then none else d.education) := rfl
  rcases hd : d.education with _ | es
  · simp [educationBlock, h, hd]
  · rcases es with _ | ⟨e, es⟩
    · simp [educationBlock, h, hd]
    · simp [educationBlock, h, hd]

theorem skillsBlock_emptyToAbsent (d : ResumeData) :
    skillsBlock (emptyToAbsent d) = skillsBlock d := by
  have h : (emptyToAbsent d).skills =
      (if d.skills = some (.str "") ∨ d.skills = some (.list []) then none
       else d.skills) := rfl
  match hd : d.skills with
  | none => simp [skillsBlock, h, hd]
  | some (.str s) =>
    by_cases hs : s = ""
    · subst hs
      simp [skillsBlock, h, hd, StrOrList.truthy]
    · have hbeq : (s == "") = false := by simp [hs]
      simp [skillsBlock, h, hd, hs, StrOrList.truthy, hbeq]
  | some (.list xs) =>
    rcases xs with _ | ⟨x, xs⟩
    · simp [skillsBlock, h, hd, StrOrList.truthy]
    · simp [skillsBlock, h, hd, StrOrList.truthy]

theorem additionalBlock_emptyToAbsent (d : ResumeData) :
    additionalBlock (emptyToAbsent d) = additionalBlock d := by
  have h : (emptyToAbsent d).additional_sections =
      (if d.additional_sections = some [] then none
       else d.additional_sections) := rfl
  rcases hd : d.additional_sections with _ | secs
  · simp [additionalBlock, h, hd]
  · rcases secs with _ | ⟨sec, secs⟩
    · simp [additionalBlock, h, hd]
    · simp [additionalBlock, h, hd]

/-- C10: a top-level field present with an empty value (empty-string
summary or skills, empty experience / education / skills /
additional-sections list) is treated exactly like an absent field: the
document built after replacing empty values by absent ones is
identical, and a falsy field emits no section block at all — its
section header included. -/
theorem c10_empty_equals_absent (d : ResumeData) :
    buildDoc (emptyToAbsent d) = buildDoc d ∧
    (truthyStr d.summary = false → summaryBlock d = []) ∧
    (truthyOptList d.experience = false → experienceBlock d = []) ∧
    (truthyOptList d.education = false → educationBlock d = []) ∧
    (truthyOptSOL d.skills = false → skillsBlock d = []) ∧
    (truthyOptList d.additional_sections = false → additionalBlock d = []) := by
  refine ⟨?_, ?_, ?_, ?_, ?_, ?_⟩
  · have hn : nameBlock (emptyToAbsent d) = nameBlock d := rfl
    have hc : contactBlock (emptyToAbsent d) = contactBlock d := rfl
    simp [buildDoc, hn, hc, summaryBlock_emptyToAbsent, experienceBlock_emptyToAbsent,
      educationBlock_emptyToAbsent, skillsBlock_emptyToAbsent,
      additionalBlock_emptyToAbsent]
  · intro h
    simp [summaryBlock, h]
  · intro h
    match hd : d.experience with
    | none => simp [experienceBlock, hd]
    | some es =>
      have he : es.isEmpty = true := by
        simpa [truthyOptList, hd] using h
      simp [experienceBlock, hd, he]
  · intro h
    match hd : d.education with
    | none => simp [educationBlock, hd]
    | some es =>
      have he : es.isEmpty = true := by
        simpa [truthyOptList, hd] using h
      simp [educationBlock, hd, he]
  · intro h
    match hd : d.skills with
    | none => simp [skillsBlock, hd]
    | some sk =>
      have ht : sk.truthy = false := by
        simpa [truthyOptSOL, hd] using h
      simp [skillsBlock, hd, ht]
  · intro h
    match hd : d.additional_sections with
    | none => simp [additionalBlock, hd]
    | some secs =>
      have he : secs.isEmpty = true := by
        simpa [truthyOptList, hd] using h
      simp [additionalBlock, hd, he]

/-- A concrete record holding every kind of empty value. -/
def emptyValuesData : ResumeData :=
  { personal_info := some {}
    summary := some ""
    experience := some []
    education := some []
    skills := some (StrOrList.list [])
    additional_sections := some [] }

theorem c10_empty_equals_absent_witness :
    buildDoc (emptyToAbsent emptyValuesData) = buildDoc emptyValuesData ∧
    summaryBlock emptyValuesData = [] ∧
    experienceBlock emptyValuesData = [] ∧
    educationBlock emptyValuesData = [] ∧
    skillsBlock emptyValuesData = [] ∧
    additionalBlock emptyValuesData = [] :=
  ⟨(c10_empty_equals_absent emptyValuesData).1,
   (c10_empty_equals_absent emptyValuesData).2.1 (by decide),
   (c10_empty_equals_absent emptyValuesData).2.2.1 (by decide),
   (c10_empty_equals_absent emptyValuesData).2.2.2.1 (by decide),
   (c10_empty_equals_absent emptyValuesData).2.2.2.2.1 (by decide),
   (c10_empty_equals_absent emptyValuesData).2.2.2.2.2 (by decide)⟩
